import Mathlib

/-!
Verification development for the agent-notify daemon runtime.

The definitions below are a shallow embedding of the daemon sources
(src/daemon/db.py, mesh.py, monitor.py, routes.py, terminal.py).
Timestamps are modelled as natural numbers (ISO-8601 strings compare
lexicographically, which agrees with the numeric order); TEXT columns
that use the empty string as a sentinel for absence are modelled as
Option Nat where noted.  The JSON empty object string used by the
terminal column is written "\x7b\x7d".
-/

set_option maxRecDepth 4000

/-- Incoming event payload, as read by insert_event and upsert_session
via data.get with these defaults (db.py). The terminal field is the
serialized form: a missing or empty dict serializes to "\x7b\x7d". -/
structure EventData where
  agent_name : String := ""
  session_id : String := ""
  parent_session_id : String := ""
  category : String := "completion"
  title : String := ""
  message : String := ""
  project_cwd : String := ""
  git_branch : String := ""
  terminal : String := "\x7b\x7d"
  work_summary : String := ""
deriving DecidableEq, Repr

/-- A row of the agent_sessions table (db.py schema).  last_heartbeat
and ended_at default to the empty string in the schema, modelled as
none. -/
structure Session where
  session_id : String
  parent_session_id : String := ""
  agent_name : String := ""
  project_cwd : String := ""
  git_branch : String := ""
  terminal : String := "\x7b\x7d"
  status : String := "active"
  last_event : String := "completion"
  first_seen : Nat := 0
  last_seen : Nat := 0
  last_heartbeat : Option Nat := none
  ended_at : Option Nat := none
  event_count : Nat := 0
deriving DecidableEq, Repr

/-- _STATUS_MAP.get(category, "active") from db.py. -/
def statusMap (c : String) : String :=
  if c = "start" then "active"
  else if c = "completion" then "idle"
  else if c = "approval" then "waiting"
  else if c = "question" then "waiting"
  else if c = "error" then "error"
  else if c = "auth" then "active"
  else if c = "stop" then "ended"
  else "active"

/-- The DO UPDATE SET branch of Database.upsert_session: agent_name is
taken from the excluded row unconditionally; parent_session_id,
project_cwd and git_branch only when non-empty; terminal only when it
differs from the empty JSON object; status and last_event are set from
the incoming category; last_seen is refreshed; ended_at is stamped
exactly when the new status is ended; event_count is incremented. -/
def updateRow (now : Nat) (d : EventData) (s : Session) : Session :=
  let st := statusMap d.category
  { s with
    agent_name := d.agent_name
    parent_session_id :=
      if d.parent_session_id ≠ "" then d.parent_session_id else s.parent_session_id
    project_cwd := if d.project_cwd ≠ "" then d.project_cwd else s.project_cwd
    git_branch := if d.git_branch ≠ "" then d.git_branch else s.git_branch
    terminal := if d.terminal ≠ "\x7b\x7d" then d.terminal else s.terminal
    status := st
    last_event := d.category
    last_seen := now
    ended_at := if st = "ended" then some now else s.ended_at
    event_count := s.event_count + 1 }

/-- The INSERT branch of Database.upsert_session: the listed columns
come from the payload, the rest take their schema defaults
(event_count starts at 1, ended_at and last_heartbeat empty). -/
def newRow (now : Nat) (d : EventData) : Session :=
  { session_id := d.session_id
    parent_session_id := d.parent_session_id
    agent_name := d.agent_name
    project_cwd := d.project_cwd
    git_branch := d.git_branch
    terminal := d.terminal
    status := statusMap d.category
    last_event := d.category
    first_seen := now
    last_seen := now
    last_heartbeat := none
    ended_at := none
    event_count := 1 }

/-- Database.upsert_session over a sessions table keyed by session_id:
returns early on an empty session_id, otherwise INSERT ... ON CONFLICT
(session_id) DO UPDATE. -/
def upsertSession (now : Nat) (d : EventData) (tbl : List Session) : List Session :=
  if d.session_id = "" then tbl
  else if tbl.any (fun s => s.session_id = d.session_id) then
    tbl.map (fun s => if s.session_id = d.session_id then updateRow now d s else s)
  else
    tbl ++ [newRow now d]

/-- SELECT * FROM agent_sessions WHERE session_id = ?. -/
def findSession (tbl : List Session) (sid : String) : Option Session :=
  tbl.find? (fun s => s.session_id = sid)

/-- A sequence of upserts, each tagged with its wall-clock instant. -/
def upsertSeq (es : List (Nat × EventData)) (tbl : List Session) : List Session :=
  es.foldl (fun acc e => upsertSession e.1 e.2 acc) tbl

/-- Database.heartbeat: UPDATE last_heartbeat and last_seen WHERE
session_id = ?; the returned Bool is total_changes > 0, i.e. whether a
row matched. -/
def dbHeartbeat (tbl : List Session) (sid : String) (now : Nat) : List Session × Bool :=
  (tbl.map (fun s =>
     if s.session_id = sid then { s with last_heartbeat := some now, last_seen := now } else s),
   tbl.any (fun s => s.session_id = sid))

/-- COALESCE(NULLIF(last_heartbeat, ''), last_seen) from
Database.stale_sessions. -/
def effTime (s : Session) : Nat :=
  match s.last_heartbeat with
  | some h => h
  | none => s.last_seen

/-- Database.stale_sessions: status IN ('active','waiting') and the
coalesced heartbeat older than now minus the threshold, ordered by
last_seen ascending. -/
def staleSessions (tbl : List Session) (now sec : Nat) : List Session :=
  List.insertionSort (fun a b => a.last_seen ≤ b.last_seen)
    (tbl.filter (fun s =>
      decide ((s.status = "active" ∨ s.status = "waiting") ∧ effTime s < now - sec)))

/-- Modelled from the spec: StaleSessions as the spec sentence words it
("sessions whose status ∈ \x7bactive, waiting\x7d and whose
max(last_heartbeat, last_seen) is older than now − thresholdSec"),
using max instead of the heartbeat-first precedence of the code. -/
def staleSessionsSpec (tbl : List Session) (now sec : Nat) : List Session :=
  List.insertionSort (fun a b => a.last_seen ≤ b.last_seen)
    (tbl.filter (fun s =>
      decide ((s.status = "active" ∨ s.status = "waiting") ∧
        (match s.last_heartbeat with
         | some h => max h s.last_seen
         | none => s.last_seen) < now - sec)))

/-- A row of the events table (db.py schema). -/
structure EventRow where
  id : Nat
  agent_name : String
  session_id : String
  parent_session_id : String
  category : String
  title : String
  message : String
  project_cwd : String
  git_branch : String
  terminal : String
  work_summary : String
  created_at : Nat
deriving DecidableEq, Repr

/-- Database.insert_event: append a new row; the autoincrement id is
modelled as one past the current table length. -/
def insertEvent (events : List EventRow) (d : EventData) (now : Nat) : List EventRow × Nat :=
  let nid := events.length + 1
  (events ++ [{ id := nid, agent_name := d.agent_name, session_id := d.session_id,
                parent_session_id := d.parent_session_id, category := d.category,
                title := d.title, message := d.message, project_cwd := d.project_cwd,
                git_branch := d.git_branch, terminal := d.terminal,
                work_summary := d.work_summary, created_at := now }], nid)

/-- The daemon state touched by the POST /api/events and POST
/api/heartbeat handlers: the events table, the sessions table and the
in-memory monitor escalation levels (dict.get(sid, 0) modelled as a
total function defaulting to 0). -/
structure DaemonState where
  events : List EventRow
  sessions : List Session
  levels : String → Nat

/-- Monitor.clear_alert: drop the per-session escalation level, i.e.
reset it to the dictionary default 0. -/
def clearAlert (lv : String → Nat) (sid : String) : String → Nat :=
  fun x => if x = sid then 0 else lv x

/-- Router._post_event (routes.py): 400 unless title or agent_name is
present; otherwise insert the event, upsert the session, clear the
monitor alert when a session_id is given, and answer 201.  The SSE
broadcast and after-work routing that follow touch neither the events
nor the sessions table nor the level map and are omitted. -/
def postEvent (st : DaemonState) (body : EventData) (now : Nat) : Nat × DaemonState :=
  if body.title = "" ∧ body.agent_name = "" then (400, st)
  else
    let evs := (insertEvent st.events body now).1
    let sess := upsertSession now body st.sessions
    let lvls := if body.session_id ≠ "" then clearAlert st.levels body.session_id else st.levels
    (201, { events := evs, sessions := sess, levels := lvls })

/-- Router._heartbeat (routes.py): 400 on an empty session_id; run
Database.heartbeat; on success clear the monitor alert and answer 200,
otherwise 404. -/
def heartbeatRoute (st : DaemonState) (sid : String) (now : Nat) : Nat × DaemonState :=
  if sid = "" then (400, st)
  else
    let r := dbHeartbeat st.sessions sid now
    if r.2 then
      (200, { st with sessions := r.1, levels := clearAlert st.levels sid })
    else
      (404, { st with sessions := r.1 })

/-- A row of the coordination_rules table (db.py schema). -/
structure Rule where
  id : Nat
  from_agent : String := "*"
  to_agent : String := "*"
  event_type : String := "*"
  action : String := "approve"
  priority : Int := 0
  template : String := ""
deriving DecidableEq, Repr

/-- What Database.match_rule hands to its callers: they read the
action, template and priority keys. -/
structure RuleResult where
  action : String
  template : String
  priority : Int
deriving DecidableEq, Repr

/-- One SELECT of the match_rule loop: rows whose three match columns
equal the probe tuple exactly. -/
def bucket (rules : List Rule) (c : String × String × String) : List Rule :=
  rules.filter (fun r =>
    decide (r.from_agent = c.1 ∧ r.to_agent = c.2.1 ∧ r.event_type = c.2.2))

/-- ORDER BY priority DESC LIMIT 1 over a bucket: the first row of
maximal priority, none when the bucket is empty. -/
def pickBucket : List Rule → Option Rule
  | [] => none
  | r :: rs =>
    match pickBucket rs with
    | none => some r
    | some b => if b.priority > r.priority then some b else some r

/-- The probe loop of Database.match_rule: try each combination in
order, return the first hit. -/
def selectLoop (rules : List Rule) : List (String × String × String) → Option Rule
  | [] => none
  | c :: cs =>
    match pickBucket (bucket rules c) with
    | some r => some r
    | none => selectLoop rules cs

/-- The eight (literal vs wildcard) probe tuples of
Database.match_rule, in source order. -/
def combos (fa ta et : String) : List (String × String × String) :=
  [(fa, ta, et), (fa, ta, "*"), (fa, "*", et), ("*", ta, et),
   (fa, "*", "*"), ("*", ta, "*"), ("*", "*", et), ("*", "*", "*")]

/-- Database.match_rule: cascade over the eight probes; when nothing
matches, the synthetic approve rule. -/
def matchRule (rules : List Rule) (fa ta et : String) : RuleResult :=
  match selectLoop rules (combos fa ta et) with
  | some r => { action := r.action, template := r.template, priority := r.priority }
  | none => { action := "approve", template := "", priority := 0 }

/-- A row of the tasks table (db.py schema); dependencies is the
decoded JSON list of task ids. -/
structure TaskRow where
  id : Nat
  session_id : String := ""
  title : String := ""
  description : String := ""
  status : String := "pending"
  priority : String := "medium"
  dependencies : List Nat := []
deriving DecidableEq, Repr

/-- Numeric view of ORDER BY priority = 'high' DESC,
priority = 'medium' DESC: high sorts first, medium second, anything
else last. -/
def prioRank (t : TaskRow) : Nat :=
  if t.priority = "high" then 0 else if t.priority = "medium" then 1 else 2

/-- The total comparison behind list_tasks ordering: priority rank,
then id ascending. -/
def taskLE (a b : TaskRow) : Prop :=
  prioRank a < prioRank b ∨ (prioRank a = prioRank b ∧ a.id ≤ b.id)

instance : DecidableRel taskLE := fun a b =>
  inferInstanceAs (Decidable (prioRank a < prioRank b ∨ (prioRank a = prioRank b ∧ a.id ≤ b.id)))

/-- The optional session_id = ? clause of list_tasks. -/
def sessionPred (sid : Option String) (t : TaskRow) : Bool :=
  match sid with
  | some s => t.session_id == s
  | none => true

/-- The optional status = ? clause of list_tasks. -/
def statusPred (status : Option String) (t : TaskRow) : Bool :=
  match status with
  | some st => t.status == st
  | none => true

/-- Database.list_tasks: optional session and status filters, ordered
by the priority ranking then id, truncated to
min(max(limit, 1), 1000) rows. -/
def listTasks (tbl : List TaskRow) (sid : Option String) (status : Option String)
    (limit : Nat) : List TaskRow :=
  (List.insertionSort taskLE
    (tbl.filter (fun t => sessionPred sid t && statusPred status t))).take
    (min (max limit 1) 1000)

/-- The done-task id set of Database.next_task, drawn from the first
1000 rows of the full listing. -/
def doneIdsOf (tbl : List TaskRow) : List Nat :=
  ((listTasks tbl none none 1000).filter (fun t => t.status == "done")).map (fun t => t.id)

/-- Database.next_task: candidates are the first 500 rows of the
session-filtered listing; return the first pending candidate whose
dependencies are all in the done-id set. -/
def nextTask (tbl : List TaskRow) (sid : Option String) : Option TaskRow :=
  (listTasks tbl sid none 500).find? (fun t =>
    t.status == "pending" && t.dependencies.all (fun d => (doneIdsOf tbl).contains d))

/-- Modelled from the spec: NextTask as the spec sentences word it —
scan all candidates in priority/id order with no row limits and return
the first actionable one, where actionable means pending with every
dependency id belonging to a done task in any session. -/
def nextTaskSpec (tbl : List TaskRow) (sid : Option String) : Option TaskRow :=
  (List.insertionSort taskLE (tbl.filter (fun t => sessionPred sid t))).find? (fun t =>
    t.status == "pending" && t.dependencies.all (fun d =>
      ((tbl.filter (fun t => t.status == "done")).map (fun t => t.id)).contains d))

/-- A row of the messages table (db.py schema); delivered_at is a
nullable column. -/
structure Message where
  id : Nat
  from_session : String := ""
  to_session : String := ""
  message_type : String := "handoff"
  content : String := ""
  status : String := "pending"
  delivered_at : Option Nat := none
deriving DecidableEq, Repr

/-- The database tables consulted by the mesh (mesh.py): messages,
agent sessions and coordination rules. -/
structure MeshDB where
  messages : List Message
  sessions : List Session
  rules : List Rule
deriving Repr

/-- Database.get_message: SELECT * FROM messages WHERE id = ?. -/
def getMessage (db : MeshDB) (mid : Nat) : Option Message :=
  db.messages.find? (fun m => m.id == mid)

/-- Database.update_message_status: set the status, and also
delivered_at when one is supplied. -/
def updateMessageStatus (db : MeshDB) (mid : Nat) (st : String) (da : Option Nat) : MeshDB :=
  { db with messages := db.messages.map (fun m =>
      if m.id == mid then
        match da with
        | some d => { m with status := st, delivered_at := some d }
        | none => { m with status := st }
      else m) }

/-- The outcome of one mesh call: the action discriminator of the
returned dict, paired with the database afterwards.  send_text is an
external subprocess; its success is the sendOk oracle. -/
def deliverMessage (db : MeshDB) (msg : Message) (now : Nat) (sendOk : Bool) :
    String × MeshDB :=
  if sendOk then
    ("delivered", updateMessageStatus db msg.id "delivered" (some now))
  else
    ("error", db)

/-- route_message (mesh.py): missing message or missing target session
answer an error without touching the store; a matched block rule marks
the message rejected; a matched auto rule attempts delivery; anything
else leaves the message pending. -/
def routeMessage (db : MeshDB) (mid : Nat) (now : Nat) (sendOk : Bool) : String × MeshDB :=
  match getMessage db mid with
  | none => ("error", db)
  | some msg =>
    match findSession db.sessions msg.to_session with
    | none => ("error", db)
    | some toS =>
      let fromAgent :=
        match findSession db.sessions msg.from_session with
        | some fs => fs.agent_name
        | none => "unknown"
      let rule := matchRule db.rules fromAgent toS.agent_name msg.message_type
      if rule.action = "block" then
        ("blocked", updateMessageStatus db mid "rejected" none)
      else if rule.action = "auto" then
        deliverMessage db msg now sendOk
      else
        ("pending", db)

/-- approve_message (mesh.py): refuse when the message is missing, not
pending, or its target session is missing; otherwise re-run delivery. -/
def approveMessage (db : MeshDB) (mid : Nat) (now : Nat) (sendOk : Bool) : String × MeshDB :=
  match getMessage db mid with
  | none => ("not_found", db)
  | some msg =>
    if msg.status ≠ "pending" then ("not_pending", db)
    else
      match findSession db.sessions msg.to_session with
      | none => ("no_target", db)
      | some _ => deliverMessage db msg now sendOk

/-- One SSE alert broadcast by Monitor._check, keeping the fields the
claims speak about. -/
structure Alert where
  level : Nat
  session_id : String
  alert_type : String
  severity : String
deriving DecidableEq, Repr

/-- The inner loop of Monitor._check for one tier: walk the stale
sessions, skip those whose recorded level already reached this tier,
otherwise record the new level and broadcast. -/
def processStale (level : Nat) (atype sev : String) :
    List Session → (String → Nat) → (String → Nat) × List Alert
  | [], lv => (lv, [])
  | s :: rest, lv =>
    if lv s.session_id ≥ level then processStale level atype sev rest lv
    else
      let lv' : String → Nat := fun x => if x = s.session_id then level else lv x
      let r := processStale level atype sev rest lv'
      (r.1, { level := level, session_id := s.session_id,
              alert_type := atype, severity := sev } :: r.2)

/-- Monitor._check: the three tiers in source order, each over its own
stale query, threading the level map and collecting broadcasts. -/
def monitorCheck (tbl : List Session) (now : Nat) (lv : String → Nat) :
    (String → Nat) × List Alert :=
  let r1 := processStale 1 "stale_agent" "warning" (staleSessions tbl now 120) lv
  let r2 := processStale 2 "stuck_agent" "alert" (staleSessions tbl now 300) r1.1
  let r3 := processStale 3 "dead_agent" "critical" (staleSessions tbl now 900) r2.1
  (r3.1, r1.2 ++ r2.2 ++ r3.2)

/-- Python str.strip over a character list: drop whitespace from both
ends. -/
def stripChars (l : List Char) : List Char :=
  ((l.dropWhile Char.isWhitespace).reverse.dropWhile Char.isWhitespace).reverse

/-- Python str.strip. -/
def pyStrip (s : String) : String :=
  String.mk (stripChars s.data)

/-- Modelled from the spec: the first whitespace-trimmed token of a
spawn call output, per the spec sentence on Spawn stdout handling. -/
def firstToken (s : String) : String :=
  String.mk ((stripChars s.data).takeWhile (fun c => !c.isWhitespace))

/-- The TerminalHandle record persisted in the terminal column
(terminal.py), with every multiplexer field present and empty when
unused. -/
structure TerminalHandle where
  multiplexer : String := ""
  tmux_socket : String := ""
  tmux_pane : String := ""
  kitty_window_id : String := ""
  kitty_socket : String := ""
  wezterm_pane : String := ""
  wezterm_socket : String := ""
  zellij_session : String := ""
deriving DecidableEq, Repr

/-- Outcome of one spawn subprocess, as seen by _run/_run_capture
before stream decoding: success flag and raw stdout. -/
structure ProcResult where
  ok : Bool
  stdout : String := ""
deriving DecidableEq, Repr

/-- _spawn_tmux success path: _run_capture strips stdout, the handler
strips again, and the result is both the pane_id and the tmux_pane
field; none models the early error returns. -/
def spawnTmux (socket : String) (res : ProcResult) : Option (TerminalHandle × String) :=
  if res.ok then
    let pid := pyStrip (pyStrip res.stdout)
    some ({ multiplexer := "tmux", tmux_socket := socket, tmux_pane := pid }, pid)
  else none

/-- _spawn_kitty success path: stripped stdout becomes the window id
and the pane_id. -/
def spawnKitty (socket : String) (res : ProcResult) : Option (TerminalHandle × String) :=
  if res.ok then
    let wid := pyStrip (pyStrip res.stdout)
    some ({ multiplexer := "kitty", kitty_window_id := wid, kitty_socket := socket }, wid)
  else none

/-- _spawn_wezterm success path: stripped stdout becomes the pane id. -/
def spawnWezterm (socket : String) (res : ProcResult) : Option (TerminalHandle × String) :=
  if res.ok then
    let pid := pyStrip (pyStrip res.stdout)
    some ({ multiplexer := "wezterm", wezterm_pane := pid, wezterm_socket := socket }, pid)
  else none

/-- _spawn_zellij success path: the spawn runs through _run, which
discards stdout; the handle holds only the session name, which is also
returned as the pane_id. -/
def spawnZellij (session : String) (res : ProcResult) : Option (TerminalHandle × String) :=
  if res.ok then
    some ({ multiplexer := "zellij", zellij_session := session }, session)
  else none

/-- The session used to separate the stale-session query of the code
from the max-based reading: its heartbeat is old but its last_seen is
fresh. -/
def staleProbe : Session :=
  { session_id := "s", status := "active", last_heartbeat := some 10, last_seen := 180 }

theorem mem_stale_iff (tbl : List Session) (now sec : Nat) (s : Session) :
    s ∈ staleSessions tbl now sec ↔
      s ∈ tbl ∧ (s.status = "active" ∨ s.status = "waiting") ∧ effTime s < now - sec := by
  unfold staleSessions
  rw [List.mem_insertionSort, List.mem_filter]
  simp only [decide_eq_true_eq]

theorem stale_subset {sec₁ sec₂ : Nat} (tbl : List Session) (now : Nat) (h : sec₁ ≤ sec₂)
    (s : Session) (hs : s ∈ staleSessions tbl now sec₂) : s ∈ staleSessions tbl now sec₁ := by
  rw [mem_stale_iff] at hs ⊢
  refine ⟨hs.1, hs.2.1, lt_of_lt_of_le hs.2.2 ?_⟩
  exact Nat.sub_le_sub_left h now

/-- C5: the claim reads StaleSessions through max(last_heartbeat,
last_seen); the code prefers a non-empty heartbeat even when last_seen
is newer.  A session with heartbeat 10 and last_seen 180 is reported
stale at now = 200, threshold 50, though max(10, 180) = 180 is within
the threshold. -/
theorem c5_stale_counterexample :
    staleSessions [staleProbe] 200 50 = [staleProbe] ∧
    staleSessionsSpec [staleProbe] 200 50 = [] ∧
    staleSessions [staleProbe] 200 50 ≠ staleSessionsSpec [staleProbe] 200 50 := by
  decide

/-- C5 (amended): StaleSessions returns exactly the sessions whose
status is active or waiting and whose last_heartbeat — or last_seen
when the heartbeat is empty — is older than now minus thresholdSec. -/
theorem c5_stale_sessions_exact (tbl : List Session) (now sec : Nat) (s : Session) :
    s ∈ staleSessions tbl now sec ↔
      s ∈ tbl ∧ (s.status = "active" ∨ s.status = "waiting") ∧ effTime s < now - sec :=
  mem_stale_iff tbl now sec s

/-- C10: an event payload with an empty session_id leaves the session
table (and the monitor level map) untouched, while POST /api/events
still appends the event row and answers 201 whenever title or
agent_name is present. -/
theorem c10_empty_session_id_noop (st : DaemonState) (body : EventData) (now : Nat)
    (hsid : body.session_id = "") (hval : ¬(body.title = "" ∧ body.agent_name = "")) :
    (∀ tbl, upsertSession now body tbl = tbl) ∧
    (postEvent st body now).1 = 201 ∧
    (postEvent st body now).2.sessions = st.sessions ∧
    (postEvent st body now).2.levels = st.levels ∧
    ∃ r : EventRow, (postEvent st body now).2.events = st.events ++ [r] ∧
      r.title = body.title ∧ r.agent_name = body.agent_name ∧
      r.session_id = "" ∧ r.category = body.category := by
  have hup : ∀ tbl, upsertSession now body tbl = tbl := by
    intro tbl
    unfold upsertSession
    rw [if_pos hsid]
  refine ⟨hup, ?_, ?_, ?_, ?_⟩ <;> simp only [postEvent, if_neg hval]
  all_goals first
    | rfl
    | exact hup st.sessions
    | exact ⟨_, rfl, rfl, rfl, hsid, rfl⟩
    | simp [hsid]

theorem c10_empty_session_id_noop_witness :
    (postEvent ⟨[], [], fun _ => 0⟩ { title := "t" } 3).1 = 201 ∧
    (postEvent ⟨[], [], fun _ => 0⟩ { title := "t" } 3).2.sessions = [] := by
  have h := c10_empty_session_id_noop ⟨[], [], fun _ => 0⟩ { title := "t" } 3 rfl (by decide)
  exact ⟨h.2.1, h.2.2.1⟩

theorem updateRow_session_id (now : Nat) (d : EventData) (s : Session) :
    (updateRow now d s).session_id = s.session_id := rfl

theorem findSession_upsert (now : Nat) (d : EventData) (tbl : List Session) (s : Session)
    (hid : d.session_id ≠ "") (hs : findSession tbl d.session_id = some s) :
    findSession (upsertSession now d tbl) d.session_id = some (updateRow now d s) := by
  unfold findSession at hs
  have hmem := List.mem_of_find?_eq_some hs
  have hps : s.session_id = d.session_id := by
    have h2 := List.find?_some hs
    simpa using h2
  unfold upsertSession
  rw [if_neg hid]
  have hany : tbl.any (fun x => x.session_id = d.session_id) = true :=
    List.any_eq_true.mpr ⟨s, hmem, by simpa using hps⟩
  rw [if_pos hany]
  clear hany hmem
  unfold findSession
  induction tbl with
  | nil => simp at hs
  | cons a as ih =>
    by_cases h : a.session_id = d.session_id
    · rw [List.find?_cons_of_pos] at hs
      · obtain rfl : a = s := by simpa using hs
        simp only [List.map_cons, if_pos h]
        rw [List.find?_cons_of_pos]
        simpa [updateRow_session_id] using h
      · simpa using h
    · rw [List.find?_cons_of_neg] at hs
      · simp only [List.map_cons, if_neg h]
        rw [List.find?_cons_of_neg]
        · exact ih hs
        · simpa using h
      · simpa using h

/-- The session and payload separating the unconditional agent_name
overwrite from the claimed keep-when-empty rule. -/
def c1Existing : Session := { session_id := "s", agent_name := "alice", project_cwd := "/w" }

/-- An incoming event for the same session with an empty agent_name. -/
def c1Incoming : EventData := { session_id := "s", title := "t" }

/-- C1: the claim says an empty incoming agent_name preserves the
existing value; the code copies excluded.agent_name unconditionally,
so the stored "alice" is clobbered by the empty string. -/
theorem c1_agent_name_counterexample :
    c1Existing.agent_name = "alice" ∧ c1Incoming.agent_name = "" ∧
    (findSession (upsertSession 9 c1Incoming [c1Existing]) "s").map Session.agent_name
      = some "" := by decide

/-- C1 (amended): on an upsert against an existing session,
parent_session_id, project_cwd and git_branch are overwritten exactly
when the incoming value is non-empty, terminal exactly when it differs
from the empty JSON object, event_count grows by one — but agent_name
is copied from the incoming event unconditionally, even when empty. -/
theorem c1_upsert_monotonic (now : Nat) (d : EventData) (tbl : List Session) (s : Session)
    (hid : d.session_id ≠ "") (hs : findSession tbl d.session_id = some s) :
    ∃ s', findSession (upsertSession now d tbl) d.session_id = some s' ∧
      s'.agent_name = d.agent_name ∧
      s'.parent_session_id =
        (if d.parent_session_id ≠ "" then d.parent_session_id else s.parent_session_id) ∧
      s'.project_cwd = (if d.project_cwd ≠ "" then d.project_cwd else s.project_cwd) ∧
      s'.git_branch = (if d.git_branch ≠ "" then d.git_branch else s.git_branch) ∧
      s'.terminal = (if d.terminal ≠ "\x7b\x7d" then d.terminal else s.terminal) ∧
      s'.event_count = s.event_count + 1 := by
  exact ⟨updateRow now d s, findSession_upsert now d tbl s hid hs,
    rfl, rfl, rfl, rfl, rfl, rfl⟩

theorem c1_upsert_monotonic_witness :
    ∃ s', findSession (upsertSession 9 c1Incoming [c1Existing]) "s" = some s' ∧
      s'.agent_name = c1Incoming.agent_name ∧
      s'.parent_session_id = (if c1Incoming.parent_session_id ≠ "" then
        c1Incoming.parent_session_id else c1Existing.parent_session_id) ∧
      s'.project_cwd = (if c1Incoming.project_cwd ≠ "" then c1Incoming.project_cwd
        else c1Existing.project_cwd) ∧
      s'.git_branch = (if c1Incoming.git_branch ≠ "" then c1Incoming.git_branch
        else c1Existing.git_branch) ∧
      s'.terminal = (if c1Incoming.terminal ≠ "\x7b\x7d" then c1Incoming.terminal
        else c1Existing.terminal) ∧
      s'.event_count = c1Existing.event_count + 1 :=
  c1_upsert_monotonic 9 c1Incoming [c1Existing] c1Existing (by decide) (by decide)

theorem upsertSession_single (now : Nat) (d : EventData) (s0 : Session)
    (h0 : s0.session_id = d.session_id) (hid : d.session_id ≠ "") :
    upsertSession now d [s0] = [updateRow now d s0] := by
  unfold upsertSession
  rw [if_neg hid]
  have hany : [s0].any (fun x => x.session_id = d.session_id) = true := by simp [h0]
  rw [if_pos hany]
  simp [h0]

theorem foldl_updateRow_session_id (es : List (Nat × EventData)) :
    ∀ s0 : Session, (es.foldl (fun acc x => updateRow x.1 x.2 acc) s0).session_id
      = s0.session_id := by
  induction es with
  | nil => intro s0; rfl
  | cons a as ih =>
    intro s0
    rw [List.foldl_cons]
    rw [ih, updateRow_session_id]

theorem upsertSeq_singleton (sid : String) (hid : sid ≠ "") (es : List (Nat × EventData)) :
    ∀ s0 : Session, (∀ e ∈ es, e.2.session_id = sid) → s0.session_id = sid →
      upsertSeq es [s0] = [es.foldl (fun acc x => updateRow x.1 x.2 acc) s0] := by
  induction es with
  | nil => intro s0 _ _; rfl
  | cons e es ih =>
    intro s0 hall h0
    have he : e.2.session_id = sid := hall e (by simp)
    have hstep : upsertSession e.1 e.2 [s0] = [updateRow e.1 e.2 s0] :=
      upsertSession_single e.1 e.2 s0 (by rw [h0, he]) (by rw [he]; exact hid)
    show upsertSeq es (upsertSession e.1 e.2 [s0]) = _
    rw [hstep, List.foldl_cons]
    exact ih (updateRow e.1 e.2 s0) (fun x hx => hall x (by simp [hx]))
      (by rw [updateRow_session_id, h0])

theorem foldl_updateRow_status (es : List (Nat × EventData)) :
    ∀ (s0 : Session) (e : Nat × EventData), es.getLast? = some e →
      (es.foldl (fun acc x => updateRow x.1 x.2 acc) s0).status = statusMap e.2.category := by
  induction es with
  | nil => intro s0 e h; simp at h
  | cons a as ih =>
    intro s0 e h
    rw [List.foldl_cons]
    cases as with
    | nil =>
      obtain rfl : a = e := by simpa using h
      rfl
    | cons b bs =>
      rw [List.getLast?_cons_cons] at h
      exact ih (updateRow a.1 a.2 s0) e h

theorem foldl_updateRow_ended (es : List (Nat × EventData)) :
    ∀ s0 : Session, ((es.foldl (fun acc x => updateRow x.1 x.2 acc) s0).ended_at ≠ none ↔
      s0.ended_at ≠ none ∨ ∃ e ∈ es, statusMap e.2.category = "ended") := by
  induction es with
  | nil => intro s0; simp
  | cons a as ih =>
    intro s0
    rw [List.foldl_cons, ih]
    by_cases h : statusMap a.2.category = "ended"
    · have hup : (updateRow a.1 a.2 s0).ended_at = some a.1 := by simp [updateRow, h]
      constructor
      · intro _; exact Or.inr ⟨a, by simp, h⟩
      · intro _; exact Or.inl (by simp [hup])
    · have hup : (updateRow a.1 a.2 s0).ended_at = s0.ended_at := by simp [updateRow, h]
      rw [hup]
      constructor
      · rintro (h1 | ⟨e, he, hse⟩)
        · exact Or.inl h1
        · exact Or.inr ⟨e, by simp [he], hse⟩
      · rintro (h1 | ⟨e, he, hse⟩)
        · exact Or.inl h1
        · rcases List.mem_cons.mp he with rfl | hmem
          · exact absurd hse h
          · exact Or.inr ⟨e, hmem, hse⟩

theorem statusMap_ended_iff (c : String) : statusMap c = "ended" ↔ c = "stop" := by
  unfold statusMap
  split_ifs with h1 h2 h3 h4 h5 h6 h7 <;> simp_all

/-- The session whose very first event is a stop. -/
def c3FirstStop : EventData := { session_id := "s", category := "stop", title := "t" }

/-- C3: the claim says ended_at is non-empty iff the status is ended;
when the first event of a session is a stop, the INSERT branch stores
status ended while leaving ended_at at its empty default. -/
theorem c3_ended_at_counterexample :
    (findSession (upsertSeq [(3, c3FirstStop)] []) "s").map Session.status = some "ended" ∧
    (findSession (upsertSeq [(3, c3FirstStop)] []) "s").map Session.ended_at = some none := by
  decide

/-- C3 (amended): after any non-empty sequence of upserts for one
session the stored status is the category map of the last event
(start to active, completion to idle, approval and question to
waiting, error to error, auth to active, stop to ended), and ended_at
is non-empty iff some event after the row-creating first one had
category stop. -/
theorem c3_status_mapping (sid : String) (hid : sid ≠ "")
    (e0 : Nat × EventData) (rest : List (Nat × EventData))
    (hall : ∀ e ∈ e0 :: rest, e.2.session_id = sid) :
    (statusMap "start" = "active" ∧ statusMap "completion" = "idle" ∧
     statusMap "approval" = "waiting" ∧ statusMap "question" = "waiting" ∧
     statusMap "error" = "error" ∧ statusMap "auth" = "active" ∧
     statusMap "stop" = "ended") ∧
    ∃ s, findSession (upsertSeq (e0 :: rest) []) sid = some s ∧
      (∀ last ∈ (e0 :: rest).getLast?, s.status = statusMap last.2.category) ∧
      (s.ended_at ≠ none ↔ ∃ e ∈ rest, e.2.category = "stop") := by
  refine ⟨by decide, ?_⟩
  have he0 : e0.2.session_id = sid := hall e0 (by simp)
  have hfirst : upsertSession e0.1 e0.2 [] = [newRow e0.1 e0.2] := by
    unfold upsertSession
    rw [if_neg (by rw [he0]; exact hid)]
    simp
  have hseq : upsertSeq (e0 :: rest) [] =
      [rest.foldl (fun acc x => updateRow x.1 x.2 acc) (newRow e0.1 e0.2)] := by
    show upsertSeq rest (upsertSession e0.1 e0.2 []) = _
    rw [hfirst]
    exact upsertSeq_singleton sid hid rest (newRow e0.1 e0.2)
      (fun x hx => hall x (by simp [hx])) (by show e0.2.session_id = sid; exact he0)
  refine ⟨rest.foldl (fun acc x => updateRow x.1 x.2 acc) (newRow e0.1 e0.2), ?_, ?_, ?_⟩
  · rw [hseq]
    unfold findSession
    rw [List.find?_cons_of_pos]
    simp [foldl_updateRow_session_id, newRow, he0]
  · intro last hlast
    cases rest with
    | nil =>
      obtain rfl : e0 = last := by simpa using hlast
      rfl
    | cons r rs =>
      rw [List.getLast?_cons_cons] at hlast
      exact foldl_updateRow_status (r :: rs) (newRow e0.1 e0.2) last hlast
  · rw [foldl_updateRow_ended]
    have : (newRow e0.1 e0.2).ended_at = none := rfl
    simp [this, statusMap_ended_iff]

theorem c3_status_mapping_witness :
    (statusMap "start" = "active" ∧ statusMap "completion" = "idle" ∧
     statusMap "approval" = "waiting" ∧ statusMap "question" = "waiting" ∧
     statusMap "error" = "error" ∧ statusMap "auth" = "active" ∧
     statusMap "stop" = "ended") ∧
    ∃ s, findSession (upsertSeq ((1, { session_id := "s", category := "start", title := "a" })
        :: [(2, { session_id := "s", category := "stop", title := "b" })]) []) "s" = some s ∧
      (∀ last ∈ ((1, ({ session_id := "s", category := "start", title := "a" } : EventData))
          :: [(2, ({ session_id := "s", category := "stop", title := "b" } : EventData))]).getLast?,
        s.status = statusMap last.2.category) ∧
      (s.ended_at ≠ none ↔
        ∃ e ∈ [(2, ({ session_id := "s", category := "stop", title := "b" } : EventData))],
          e.2.category = "stop") :=
  c3_status_mapping "s" (by decide)
    (1, { session_id := "s", category := "start", title := "a" })
    [(2, { session_id := "s", category := "stop", title := "b" })]
    (by intro e he; rcases List.mem_cons.mp he with rfl | he2
        · rfl
        · simp at he2; rw [he2])

theorem pickBucket_eq_none {l : List Rule} : pickBucket l = none ↔ l = [] := by
  cases l with
  | nil => simp [pickBucket]
  | cons r rs =>
    constructor
    · intro h
      unfold pickBucket at h
      cases hx : pickBucket rs <;> rw [hx] at h <;> revert h <;>
        simp only [] <;> (try split) <;> simp
    · intro h
      simp at h

theorem pickBucket_mem : ∀ {l : List Rule} {b : Rule}, pickBucket l = some b → b ∈ l := by
  intro l
  induction l with
  | nil => intro b h; simp [pickBucket] at h
  | cons r rs ih =>
    intro b h
    cases hx : pickBucket rs <;> simp only [pickBucket, hx] at h
    · obtain rfl : r = b := by simpa using h
      simp
    · rename_i bb
      by_cases hgt : bb.priority > r.priority
    
      · rw [if_pos hgt] at h
        obtain rfl : bb = b := by simpa using h
        exact List.mem_cons_of_mem r (ih hx)
      · rw [if_neg hgt] at h
        obtain rfl : r = b := by simpa using h
        simp

theorem pickBucket_max : ∀ {l : List Rule} {b : Rule}, pickBucket l = some b →
    ∀ x ∈ l, x.priority ≤ b.priority := by
  intro l
  induction l with
  | nil => intro b h; simp [pickBucket] at h
  | cons r rs ih =>
    intro b h x hx
    cases hp : pickBucket rs <;> simp only [pickBucket, hp] at h
    · have hrs : rs = [] := pickBucket_eq_none.mp hp
      subst hrs
      obtain rfl : r = b := by simpa using h
      rcases List.mem_cons.mp hx with rfl | hx2
      · exact le_refl _
      · simp at hx2
    · rename_i bb
      have hbb := ih hp
      by_cases hgt : bb.priority > r.priority
      · rw [if_pos hgt] at h
        obtain rfl : bb = b := by simpa using h
        rcases List.mem_cons.mp hx with rfl | hx2
        · exact le_of_lt hgt
        · exact hbb x hx2
      · rw [if_neg hgt] at h
        obtain rfl : r = b := by simpa using h
        rcases List.mem_cons.mp hx with rfl | hx2
        · exact le_refl _
        · exact le_trans (hbb x hx2) (not_lt.mp hgt)

theorem selectLoop_eq_none {rules : List Rule} :
    ∀ {cs : List (String × String × String)},
      selectLoop rules cs = none ↔ ∀ c ∈ cs, bucket rules c = [] := by
  intro cs
  induction cs with
  | nil => simp [selectLoop]
  | cons c cs ih =>
    unfold selectLoop
    cases h : pickBucket (bucket rules c)
    · have hc : bucket rules c = [] := pickBucket_eq_none.mp h
      simp [ih, hc]
    · have hc : bucket rules c ≠ [] := by
        intro he
        rw [he] at h
        simp [pickBucket] at h
      simp [hc]

theorem selectLoop_first (rules : List Rule) :
    ∀ (pre : List (String × String × String)) (c : String × String × String)
      (post : List (String × String × String)),
      (∀ c' ∈ pre, bucket rules c' = []) → bucket rules c ≠ [] →
      ∃ r, selectLoop rules (pre ++ c :: post) = some r ∧ r ∈ bucket rules c ∧
        ∀ x ∈ bucket rules c, x.priority ≤ r.priority := by
  intro pre
  induction pre with
  | nil =>
    intro c post _ hne
    have : pickBucket (bucket rules c) ≠ none := fun h => hne (pickBucket_eq_none.mp h)
    obtain ⟨r, hr⟩ := Option.ne_none_iff_exists'.mp this
    refine ⟨r, ?_, pickBucket_mem hr, pickBucket_max hr⟩
    show selectLoop rules (c :: post) = some r
    unfold selectLoop
    rw [hr]
  | cons p pre ih =>
    intro c post hpre hne
    have hp : bucket rules p = [] := hpre p (by simp)
    obtain ⟨r, hsel, hmem, hmax⟩ := ih c post (fun x hx => hpre x (by simp [hx])) hne
    refine ⟨r, ?_, hmem, hmax⟩
    show selectLoop rules (p :: (pre ++ c :: post)) = some r
    unfold selectLoop
    rw [hp]
    simpa [pickBucket] using hsel

/-- C2: MatchRule tries the eight literal-versus-wildcard probes in
the fixed source order; the result comes from the first probe whose
bucket is non-empty and carries the maximal priority inside that
bucket; when every bucket is empty the synthetic approve rule is
returned. -/
theorem c2_match_rule_cascade (rules : List Rule) (fa ta et : String) :
    combos fa ta et = [(fa, ta, et), (fa, ta, "*"), (fa, "*", et), ("*", ta, et),
      (fa, "*", "*"), ("*", ta, "*"), ("*", "*", et), ("*", "*", "*")] ∧
    ((∀ c ∈ combos fa ta et, bucket rules c = []) →
      matchRule rules fa ta et = { action := "approve", template := "", priority := 0 }) ∧
    (∀ pre c post, combos fa ta et = pre ++ c :: post →
      (∀ c' ∈ pre, bucket rules c' = []) → bucket rules c ≠ [] →
      ∃ r ∈ bucket rules c,
        matchRule rules fa ta et =
          { action := r.action, template := r.template, priority := r.priority } ∧
        ∀ x ∈ bucket rules c, x.priority ≤ r.priority) := by
  refine ⟨rfl, ?_, ?_⟩
  · intro hall
    unfold matchRule
    rw [selectLoop_eq_none.mpr hall]
  · intro pre c post hdec hpre hne
    obtain ⟨r, hsel, hmem, hmax⟩ := selectLoop_first rules pre c post hpre hne
    unfold matchRule
    rw [hdec, hsel]
    exact ⟨r, hmem, rfl, hmax⟩

/-- The single wildcard block rule used to instantiate the cascade. -/
def c2Rule : Rule :=
  { id := 1, from_agent := "*", to_agent := "*", event_type := "handoff",
    action := "block", priority := 5 }

theorem c2_match_rule_cascade_witness :
    ∃ r ∈ bucket [c2Rule] ("*", "*", "handoff"),
      matchRule [c2Rule] "a" "b" "handoff" =
        { action := r.action, template := r.template, priority := r.priority } ∧
      ∀ x ∈ bucket [c2Rule] ("*", "*", "handoff"), x.priority ≤ r.priority :=
  (c2_match_rule_cascade [c2Rule] "a" "b" "handoff").2.2
    [("a", "b", "handoff"), ("a", "b", "*"), ("a", "*", "handoff"), ("*", "b", "handoff"),
     ("a", "*", "*"), ("*", "b", "*")]
    ("*", "*", "handoff") [("*", "*", "*")] (by decide) (by decide) (by decide)

theorem contains_congr_of_perm {l1 l2 : List Nat} (h : l1.Perm l2) (d : Nat) :
    l1.contains d = l2.contains d := by
  show List.elem d l1 = List.elem d l2
  rw [List.elem_eq_mem, List.elem_eq_mem]
  exact decide_eq_decide.mpr h.mem_iff

/-- High-priority pending tasks with an unsatisfiable dependency; 500
of them fill the candidate window. -/
def c4Filler (i : Nat) : TaskRow :=
  { id := i + 1, status := "pending", priority := "high", dependencies := [9999] }

/-- The actionable low-priority task that sorts at position 501. -/
def c4Last : TaskRow := { id := 501, status := "pending", priority := "low" }

/-- A store of 501 tasks: the 500-candidate window of next_task cuts
off the only actionable task. -/
def c4Tbl : List TaskRow := ((List.range 500).map c4Filler) ++ [c4Last]

/-- C4: the claim quantifies over every task store, but next_task
reads candidates through LIMIT 500 (and the done set through LIMIT
1000); with 501 tasks the only actionable task is beyond the window,
so the code returns nothing while the claimed scan returns it. -/
theorem c4_limit_counterexample :
    nextTask c4Tbl none = none ∧ nextTaskSpec c4Tbl none = some c4Last := by
  decide

/-- C4 (amended): next_task computes the done-id set from the first
1000 rows and scans only the first 500 candidates; on stores of at
most 500 tasks it agrees exactly with the claimed scan — first
actionable task in priority then id order, dependencies resolved
against done tasks of any session. -/
theorem c4_next_task_small (tbl : List TaskRow) (sid : Option String)
    (hlen : tbl.length ≤ 500) : nextTask tbl sid = nextTaskSpec tbl sid := by
  have hps : (fun t : TaskRow => sessionPred none t && statusPred none t)
      = (fun _ : TaskRow => true) := funext fun t => rfl
  have hm1000 : min (max 1000 1) 1000 = 1000 := by decide
  have hm500 : min (max 500 1) 1000 = 500 := by decide
  have htake1 : (List.insertionSort taskLE tbl).take 1000 = List.insertionSort taskLE tbl :=
    List.take_of_length_le (by rw [(List.perm_insertionSort taskLE tbl).length_eq]; omega)
  have hps2 : (fun t : TaskRow => sessionPred sid t && statusPred none t)
      = (fun t : TaskRow => sessionPred sid t) := funext fun t => Bool.and_true _
  have htake2 : (List.insertionSort taskLE (tbl.filter (fun t => sessionPred sid t))).take 500
      = List.insertionSort taskLE (tbl.filter (fun t => sessionPred sid t)) :=
    List.take_of_length_le (by
      rw [(List.perm_insertionSort taskLE (tbl.filter (fun t => sessionPred sid t))).length_eq]
      exact le_trans (List.length_filter_le _ _) hlen)
  have hdone : (fun d : Nat =>
        (((List.insertionSort taskLE tbl).filter (fun t => t.status == "done")).map
          (fun t => t.id)).contains d)
      = (fun d : Nat =>
        ((tbl.filter (fun t => t.status == "done")).map (fun t => t.id)).contains d) := by
    funext d
    exact contains_congr_of_perm
      (((List.perm_insertionSort taskLE tbl).filter _).map _) d
  unfold nextTask nextTaskSpec doneIdsOf listTasks
  simp only [hps, List.filter_true, hm1000, hm500, htake1, hps2, htake2, hdone]

theorem c4_next_task_small_witness :
    nextTask [{ id := 1, status := "done" }, { id := 2, dependencies := [1] }] none
      = nextTaskSpec [{ id := 1, status := "done" }, { id := 2, dependencies := [1] }] none :=
  c4_next_task_small [{ id := 1, status := "done" }, { id := 2, dependencies := [1] }] none
    (by decide)

theorem getMessage_id {db : MeshDB} {mid : Nat} {msg : Message}
    (h : getMessage db mid = some msg) : msg.id = mid := by
  unfold getMessage at h
  have hb := List.find?_some h
  simpa using hb

theorem getMessage_update (db : MeshDB) (mid : Nat) (st : String) (da : Option Nat) :
    getMessage (updateMessageStatus db mid st da) mid = (getMessage db mid).map (fun m =>
      match da with
      | some d => { m with status := st, delivered_at := some d }
      | none => { m with status := st }) := by
  unfold getMessage updateMessageStatus
  have hid : ∀ m : Message,
      ((match da with
        | some d => { m with status := st, delivered_at := some d }
        | none => { m with status := st } : Message).id == mid) = (m.id == mid) := by
    intro m
    cases da <;> rfl
  induction db.messages with
  | nil => rfl
  | cons a ms ih =>
    by_cases h : (a.id == mid) = true
    · rw [List.map_cons]
      rw [List.find?_cons_of_pos]
      · rw [List.find?_cons_of_pos]
        · simp [h]
        · exact h
      · simp [h, hid]
    · rw [List.map_cons]
      rw [List.find?_cons_of_neg]
      · rw [List.find?_cons_of_neg]
        · exact ih
        · exact h
      · simp [h, hid]

/-- C6: routing a pending mesh message: a missing target session
answers an error with the store untouched (the message stays
pending); a block rule marks it rejected and answers blocked; an auto
rule with successful delivery marks it delivered with delivered_at
stamped; an auto rule with failed delivery leaves the store untouched
and answers an error; any other action leaves the store untouched and
answers pending. -/
theorem c6_route_message (db : MeshDB) (msg : Message) (mid now : Nat) (sendOk : Bool)
    (hm : getMessage db mid = some msg) (hp : msg.status = "pending") :
    (findSession db.sessions msg.to_session = none →
      routeMessage db mid now sendOk = ("error", db)) ∧
    (∀ toS act, findSession db.sessions msg.to_session = some toS →
      act = (matchRule db.rules
        (match findSession db.sessions msg.from_session with
         | some fs => fs.agent_name
         | none => "unknown") toS.agent_name msg.message_type).action →
      ((act = "block" →
        routeMessage db mid now sendOk = ("blocked", updateMessageStatus db mid "rejected" none) ∧
        (getMessage (routeMessage db mid now sendOk).2 mid).map Message.status
          = some "rejected") ∧
       (act = "auto" → sendOk = true →
        routeMessage db mid now sendOk
          = ("delivered", updateMessageStatus db mid "delivered" (some now)) ∧
        (getMessage (routeMessage db mid now sendOk).2 mid).map Message.status
          = some "delivered" ∧
        (getMessage (routeMessage db mid now sendOk).2 mid).map Message.delivered_at
          = some (some now)) ∧
       (act = "auto" → sendOk = false → routeMessage db mid now sendOk = ("error", db)) ∧
       (act ≠ "block" → act ≠ "auto" →
        routeMessage db mid now sendOk = ("pending", db)))) := by
  have hmid := getMessage_id hm
  constructor
  · intro hnone
    unfold routeMessage
    simp only [hm, hnone]
  · intro toS act htoS hact
    have hroute : routeMessage db mid now sendOk =
        (if (matchRule db.rules
            (match findSession db.sessions msg.from_session with
             | some fs => fs.agent_name
             | none => "unknown") toS.agent_name msg.message_type).action = "block" then
          ("blocked", updateMessageStatus db mid "rejected" none)
        else if (matchRule db.rules
            (match findSession db.sessions msg.from_session with
             | some fs => fs.agent_name
             | none => "unknown") toS.agent_name msg.message_type).action = "auto" then
          deliverMessage db msg now sendOk
        else ("pending", db)) := by
      unfold routeMessage
      simp only [hm, htoS]
    refine ⟨?_, ?_, ?_, ?_⟩
    · intro hb
      rw [← hact] at hroute
      rw [hroute, if_pos hb]
      exact ⟨rfl, by simp [getMessage_update, hm]⟩
    · intro ha hs
      rw [← hact] at hroute
      have hnb : ¬(act = "block") := by rw [ha]; decide
      rw [hroute, if_neg hnb, if_pos ha]
      refine ⟨?_, ?_, ?_⟩ <;> simp [deliverMessage, hs, hmid, getMessage_update, hm]
    · intro ha hs
      rw [← hact] at hroute
      have hnb : ¬(act = "block") := by rw [ha]; decide
      rw [hroute, if_neg hnb, if_pos ha]
      simp [deliverMessage, hs]
    · intro hnb hna
      rw [← hact] at hroute
      rw [hroute, if_neg hnb, if_neg hna]

/-- The message, sessions and blocking rule instantiating the mesh
routing contract. -/
def c6Msg : Message := { id := 1, from_session := "a", to_session := "b" }

def c6Rule : Rule :=
  { id := 1, from_agent := "*", to_agent := "*", event_type := "handoff",
    action := "block", priority := 0 }

def c6Db : MeshDB :=
  { messages := [c6Msg],
    sessions := [{ session_id := "b", agent_name := "bob" },
                 { session_id := "a", agent_name := "alice" }],
    rules := [c6Rule] }

theorem c6_route_message_witness :
    routeMessage c6Db 1 5 true = ("blocked", updateMessageStatus c6Db 1 "rejected" none) ∧
    (getMessage (routeMessage c6Db 1 5 true).2 1).map Message.status = some "rejected" :=
  ((c6_route_message c6Db c6Msg 1 5 true (by decide) rfl).2
    { session_id := "b", agent_name := "bob" } "block" (by decide) (by decide)).1 rfl

/-- C7: approve_message on a message that exists but is not pending
fails with the store unchanged (independently of the delivery oracle),
and a delivery outcome can only arise when the message exists, is
pending, and its target session exists. -/
theorem c7_approve_no_side_effects (db : MeshDB) (mid now : Nat) (sendOk : Bool) :
    (∀ msg, getMessage db mid = some msg → msg.status ≠ "pending" →
      approveMessage db mid now sendOk = ("not_pending", db)) ∧
    (∀ out db2, approveMessage db mid now sendOk = (out, db2) →
      (out = "delivered" ∨ out = "error") →
      ∃ msg, getMessage db mid = some msg ∧ msg.status = "pending" ∧
        ∃ t, findSession db.sessions msg.to_session = some t) := by
  constructor
  · intro msg hm hnp
    unfold approveMessage
    simp only [hm]
    rw [if_pos hnp]
  · intro out db2 hres hd
    unfold approveMessage at hres
    cases hm : getMessage db mid <;> simp only [hm] at hres
    · cases hres
      rcases hd with h | h <;> simp at h
    · rename_i msg
      by_cases hnp : msg.status ≠ "pending"
      · rw [if_pos hnp] at hres
        cases hres
        rcases hd with h | h <;> simp at h
      · rw [if_neg hnp] at hres
        push_neg at hnp
        cases ht : findSession db.sessions msg.to_session <;> simp only [ht] at hres
        · cases hres
          rcases hd with h | h <;> simp at h
        · rename_i t
          exact ⟨msg, rfl, hnp, t, ht⟩

/-- The store holding one already delivered message. -/
def c7Db : MeshDB :=
  { messages := [{ id := 1, status := "delivered" }], sessions := [], rules := [] }

theorem c7_approve_no_side_effects_witness :
    approveMessage c7Db 1 0 true = ("not_pending", c7Db) :=
  (c7_approve_no_side_effects c7Db 1 0 true).1 { id := 1, status := "delivered" }
    (by decide) (by decide)

theorem dropWhile_idem (p : Char → Bool) (l : List Char) :
    (l.dropWhile p).dropWhile p = l.dropWhile p := by
  induction l with
  | nil => rfl
  | cons a l ih =>
    by_cases h : p a = true
    · rw [List.dropWhile_cons, if_pos h]
      exact ih
    · rw [List.dropWhile_cons, if_neg h, List.dropWhile_cons, if_neg h]

theorem head?_dropWhile_false (p : Char → Bool) (l : List Char) :
    ∀ a, (l.dropWhile p).head? = some a → p a = false := by
  induction l with
  | nil => intro a h; simp at h
  | cons b l ih =>
    intro a h
    by_cases hb : p b = true
    · rw [List.dropWhile_cons, if_pos hb] at h
      exact ih a h
    · rw [List.dropWhile_cons, if_neg hb] at h
      obtain rfl : b = a := by simpa using h
      simpa using hb

theorem dropWhile_of_head_false (p : Char → Bool) (l : List Char)
    (hl : ∀ a, l.head? = some a → p a = false) : l.dropWhile p = l := by
  cases l with
  | nil => rfl
  | cons a l =>
    rw [List.dropWhile_cons, if_neg]
    simp [hl a rfl]

theorem getLast?_of_suffix {l₁ l₂ : List Char} (h : l₁ <:+ l₂) (hne : l₁ ≠ []) :
    l₁.getLast? = l₂.getLast? := by
  obtain ⟨t, rfl⟩ := h
  exact (List.getLast?_append_of_ne_nil t hne).symm

theorem stripChars_idem (l : List Char) : stripChars (stripChars l) = stripChars l := by
  unfold stripChars
  set A := l.dropWhile Char.isWhitespace with hA
  set B := A.reverse.dropWhile Char.isWhitespace with hB
  have h1 : B.reverse.dropWhile Char.isWhitespace = B.reverse := by
    apply dropWhile_of_head_false
    intro a ha
    rw [List.head?_reverse] at ha
    by_cases hBe : B = []
    · rw [hBe] at ha
      simp at ha
    · have hsuf : B <:+ A.reverse := by
        rw [hB]
        exact List.dropWhile_suffix _
      rw [getLast?_of_suffix hsuf hBe, List.getLast?_reverse] at ha
      exact head?_dropWhile_false Char.isWhitespace l a (by rw [← hA]; exact ha)
  rw [h1, List.reverse_reverse, hB, dropWhile_idem]

theorem pyStrip_idem (s : String) : pyStrip (pyStrip s) = pyStrip s := by
  unfold pyStrip
  congr 1
  show stripChars (stripChars s.data) = stripChars s.data
  exact stripChars_idem s.data

/-- C9: the zellij spawner runs through _run, which discards stdout,
and returns the session name as the pane id; and the capturing
spawners use the whole stripped stdout, not its first token. -/
theorem c9_spawn_counterexample :
    spawnZellij "main" { ok := true, stdout := "pane77" }
      = some ({ multiplexer := "zellij", zellij_session := "main" }, "main") ∧
    ("main" : String) ≠ firstToken "pane77" ∧
    (spawnTmux "" { ok := true, stdout := "a b" }).map Prod.snd = some "a b" ∧
    ("a b" : String) ≠ firstToken "a b" := by decide

/-- C9 (amended): for tmux, kitty and wezterm a successful spawn
captures stdout and its whitespace-stripped value — the whole stripped
string — becomes both the returned pane_id and the handle identifier
field; for zellij stdout is not captured and the pane_id is the
zellij session name, independent of the subprocess output. -/
theorem c9_spawn_stdout (socket session : String) (res : ProcResult) (hok : res.ok = true) :
    spawnTmux socket res =
      some ({ multiplexer := "tmux", tmux_socket := socket, tmux_pane := pyStrip res.stdout }, pyStrip res.stdout) ∧
    spawnKitty socket res =
      some ({ multiplexer := "kitty", kitty_window_id := pyStrip res.stdout, kitty_socket := socket }, pyStrip res.stdout) ∧
    spawnWezterm socket res =
      some ({ multiplexer := "wezterm", wezterm_pane := pyStrip res.stdout, wezterm_socket := socket }, pyStrip res.stdout) ∧
    spawnZellij session res =
      some ({ multiplexer := "zellij", zellij_session := session }, session) := by
  refine ⟨?_, ?_, ?_, ?_⟩ <;>
    simp [spawnTmux, spawnKitty, spawnWezterm, spawnZellij, hok, pyStrip_idem]

theorem c9_spawn_stdout_witness :
    spawnTmux "" { ok := true, stdout := " %3 " } =
      some ({ multiplexer := "tmux", tmux_socket := "", tmux_pane := pyStrip " %3 " }, pyStrip " %3 ") ∧
    spawnKitty "" { ok := true, stdout := " %3 " } =
      some ({ multiplexer := "kitty", kitty_window_id := pyStrip " %3 ", kitty_socket := "" }, pyStrip " %3 ") ∧
    spawnWezterm "" { ok := true, stdout := " %3 " } =
      some ({ multiplexer := "wezterm", wezterm_pane := pyStrip " %3 ", wezterm_socket := "" }, pyStrip " %3 ") ∧
    spawnZellij "main" { ok := true, stdout := " %3 " } =
      some ({ multiplexer := "zellij", zellij_session := "main" }, "main") :=
  c9_spawn_stdout "" "main" { ok := true, stdout := " %3 " } rfl

theorem processStale_cons_skip (L : Nat) (atype sev : String) (s : Session)
    (rest : List Session) (lv : String → Nat) (h : lv s.session_id ≥ L) :
    processStale L atype sev (s :: rest) lv = processStale L atype sev rest lv := by
  conv_lhs => unfold processStale
  rw [if_pos h]

theorem processStale_cons_esc (L : Nat) (atype sev : String) (s : Session)
    (rest : List Session) (lv : String → Nat) (h : ¬(lv s.session_id ≥ L)) :
    processStale L atype sev (s :: rest) lv =
      ((processStale L atype sev rest (fun x => if x = s.session_id then L else lv x)).1,
       { level := L, session_id := s.session_id, alert_type := atype, severity := sev } ::
       (processStale L atype sev rest (fun x => if x = s.session_id then L else lv x)).2) := by
  conv_lhs => unfold processStale
  rw [if_neg h]

theorem processStale_levels (L : Nat) (atype sev : String) :
    ∀ (ss : List Session) (lv : String → Nat) (x : String),
      (processStale L atype sev ss lv).1 x =
        if x ∈ ss.map Session.session_id ∧ lv x < L then L else lv x := by
  intro ss
  induction ss with
  | nil =>
    intro lv x
    simp [processStale]
  | cons s rest ih =>
    intro lv x
    by_cases hc : lv s.session_id ≥ L
    · rw [processStale_cons_skip L atype sev s rest lv hc, ih]
      by_cases hx : x = s.session_id
      · subst hx
        have hnlt : ¬(lv s.session_id < L) := not_lt.mpr hc
        simp [hnlt]
      · simp [hx]
    · rw [processStale_cons_esc L atype sev s rest lv hc]
      dsimp only
      rw [ih]
      by_cases hx : x = s.session_id
      · subst hx
        push_neg at hc
        simp [hc]
      · simp [hx]

theorem processStale_alerts (L : Nat) (atype sev : String) :
    ∀ (ss : List Session) (lv : String → Nat) (sid : String),
      (({ level := L, session_id := sid, alert_type := atype, severity := sev } : Alert)
        ∈ (processStale L atype sev ss lv).2) ↔
      (sid ∈ ss.map Session.session_id ∧ lv sid < L) := by
  intro ss
  induction ss with
  | nil =>
    intro lv sid
    simp [processStale]
  | cons s rest ih =>
    intro lv sid
    by_cases hc : lv s.session_id ≥ L
    · rw [processStale_cons_skip L atype sev s rest lv hc, ih]
      by_cases hx : sid = s.session_id
      · subst hx
        have hnlt : ¬(lv s.session_id < L) := not_lt.mpr hc
        simp [hnlt]
      · simp [hx]
    · rw [processStale_cons_esc L atype sev s rest lv hc]
      dsimp only
      rw [List.mem_cons, ih]
      by_cases hx : sid = s.session_id
      · subst hx
        push_neg at hc
        simp [hc]
      · simp [hx, Alert.mk.injEq]

theorem processStale_alert_fields (L : Nat) (atype sev : String) :
    ∀ (ss : List Session) (lv : String → Nat) (a : Alert),
      a ∈ (processStale L atype sev ss lv).2 →
      a.level = L ∧ a.alert_type = atype ∧ a.severity = sev := by
  intro ss
  induction ss with
  | nil =>
    intro lv a h
    simp [processStale] at h
  | cons s rest ih =>
    intro lv a h
    by_cases hc : lv s.session_id ≥ L
    · rw [processStale_cons_skip L atype sev s rest lv hc] at h
      exact ih lv a h
    · rw [processStale_cons_esc L atype sev s rest lv hc] at h
      dsimp only at h
      rcases List.mem_cons.mp h with rfl | h2
      · exact ⟨rfl, rfl, rfl⟩
      · exact ih _ a h2

theorem processStale_mono (L : Nat) (atype sev : String) (ss : List Session)
    (f : String → Nat) (x : String) : f x ≤ (processStale L atype sev ss f).1 x := by
  rw [processStale_levels]
  by_cases h : x ∈ ss.map Session.session_id ∧ f x < L
  · rw [if_pos h]
    exact le_of_lt h.2
  · rw [if_neg h]

theorem stale_ids_subset {sec₁ sec₂ : Nat} (tbl : List Session) (now : Nat) (h : sec₁ ≤ sec₂)
    (sid : String) (hm : sid ∈ (staleSessions tbl now sec₂).map Session.session_id) :
    sid ∈ (staleSessions tbl now sec₁).map Session.session_id := by
  obtain ⟨s, hs, heq⟩ := List.mem_map.mp hm
  exact heq ▸ List.mem_map_of_mem _ (stale_subset tbl now h s hs)

set_option maxHeartbeats 1600000 in
/-- C8: within one monitor check, escalation levels never decrease; a
tier-L alert (thresholds 120 s, 300 s, 900 s) is broadcast for a
session exactly when the session is stale at that tier's threshold and
its recorded level at the start of the check is strictly below L;
every broadcast leaves the final level at or above its tier, and a
session with no broadcast keeps its level; an accepted POST
/api/events carrying a session_id and a successful heartbeat reset the
level to 0. -/
theorem c8_monitor_escalation (tbl : List Session) (now : Nat) (lv : String → Nat) :
    (∀ x, lv x ≤ (monitorCheck tbl now lv).1 x) ∧
    (∀ sid,
      (({ level := 1, session_id := sid, alert_type := "stale_agent", severity := "warning" } : Alert) ∈ (monitorCheck tbl now lv).2) ↔
      (sid ∈ (staleSessions tbl now 120).map Session.session_id ∧ lv sid < 1)) ∧
    (∀ sid,
      (({ level := 2, session_id := sid, alert_type := "stuck_agent", severity := "alert" } : Alert) ∈ (monitorCheck tbl now lv).2) ↔
      (sid ∈ (staleSessions tbl now 300).map Session.session_id ∧ lv sid < 2)) ∧
    (∀ sid,
      (({ level := 3, session_id := sid, alert_type := "dead_agent", severity := "critical" } : Alert) ∈ (monitorCheck tbl now lv).2) ↔
      (sid ∈ (staleSessions tbl now 900).map Session.session_id ∧ lv sid < 3)) ∧
    (∀ a, a ∈ (monitorCheck tbl now lv).2 → a.level ≤ (monitorCheck tbl now lv).1 a.session_id) ∧
    (∀ sid, (∀ a, a ∈ (monitorCheck tbl now lv).2 → a.session_id ≠ sid) →
      (monitorCheck tbl now lv).1 sid = lv sid) ∧
    (∀ (st : DaemonState) (body : EventData) (ts : Nat), body.session_id ≠ "" →
      (postEvent st body ts).1 = 201 → (postEvent st body ts).2.levels body.session_id = 0) ∧
    (∀ (st : DaemonState) (sid : String) (ts : Nat), (heartbeatRoute st sid ts).1 = 200 →
      (heartbeatRoute st sid ts).2.levels sid = 0) := by
  have hS21 : ∀ sid, sid ∈ (staleSessions tbl now 300).map Session.session_id →
      sid ∈ (staleSessions tbl now 120).map Session.session_id :=
    fun sid => stale_ids_subset tbl now (by norm_num) sid
  have hS32 : ∀ sid, sid ∈ (staleSessions tbl now 900).map Session.session_id →
      sid ∈ (staleSessions tbl now 300).map Session.session_id :=
    fun sid => stale_ids_subset tbl now (by norm_num) sid
  set S1 := staleSessions tbl now 120 with hS1def
  set S2 := staleSessions tbl now 300 with hS2def
  set S3 := staleSessions tbl now 900 with hS3def
  set lv1 := (processStale 1 "stale_agent" "warning" S1 lv).1 with hlv1def
  set A1 := (processStale 1 "stale_agent" "warning" S1 lv).2 with hA1def
  set lv2 := (processStale 2 "stuck_agent" "alert" S2 lv1).1 with hlv2def
  set A2 := (processStale 2 "stuck_agent" "alert" S2 lv1).2 with hA2def
  set lv3 := (processStale 3 "dead_agent" "critical" S3 lv2).1 with hlv3def
  set A3 := (processStale 3 "dead_agent" "critical" S3 lv2).2 with hA3def
  have hmc : monitorCheck tbl now lv = (lv3, A1 ++ A2 ++ A3) := rfl
  have hfst : (monitorCheck tbl now lv).1 = lv3 := by rw [hmc]
  have hsnd : (monitorCheck tbl now lv).2 = A1 ++ A2 ++ A3 := by rw [hmc]
  have e1 : ∀ x, lv1 x = if x ∈ S1.map Session.session_id ∧ lv x < 1 then 1 else lv x :=
    fun x => processStale_levels 1 "stale_agent" "warning" S1 lv x
  have e2 : ∀ x, lv2 x = if x ∈ S2.map Session.session_id ∧ lv1 x < 2 then 2 else lv1 x :=
    fun x => processStale_levels 2 "stuck_agent" "alert" S2 lv1 x
  have e3 : ∀ x, lv3 x = if x ∈ S3.map Session.session_id ∧ lv2 x < 3 then 3 else lv2 x :=
    fun x => processStale_levels 3 "dead_agent" "critical" S3 lv2 x
  have m1 : ∀ x, lv x ≤ lv1 x := fun x => processStale_mono 1 "stale_agent" "warning" S1 lv x
  have m2 : ∀ x, lv1 x ≤ lv2 x := fun x => processStale_mono 2 "stuck_agent" "alert" S2 lv1 x
  have m3 : ∀ x, lv2 x ≤ lv3 x := fun x => processStale_mono 3 "dead_agent" "critical" S3 lv2 x
  have a1m : ∀ sid,
      (({ level := 1, session_id := sid, alert_type := "stale_agent", severity := "warning" } : Alert) ∈ A1) ↔
      (sid ∈ S1.map Session.session_id ∧ lv sid < 1) :=
    fun sid => processStale_alerts 1 "stale_agent" "warning" S1 lv sid
  have a2m : ∀ sid,
      (({ level := 2, session_id := sid, alert_type := "stuck_agent", severity := "alert" } : Alert) ∈ A2) ↔
      (sid ∈ S2.map Session.session_id ∧ lv1 sid < 2) :=
    fun sid => processStale_alerts 2 "stuck_agent" "alert" S2 lv1 sid
  have a3m : ∀ sid,
      (({ level := 3, session_id := sid, alert_type := "dead_agent", severity := "critical" } : Alert) ∈ A3) ↔
      (sid ∈ S3.map Session.session_id ∧ lv2 sid < 3) :=
    fun sid => processStale_alerts 3 "dead_agent" "critical" S3 lv2 sid
  have f1 : ∀ a, a ∈ A1 → a.level = 1 ∧ a.alert_type = "stale_agent" ∧ a.severity = "warning" :=
    fun a ha => processStale_alert_fields 1 "stale_agent" "warning" S1 lv a ha
  have f2 : ∀ a, a ∈ A2 → a.level = 2 ∧ a.alert_type = "stuck_agent" ∧ a.severity = "alert" :=
    fun a ha => processStale_alert_fields 2 "stuck_agent" "alert" S2 lv1 a ha
  have f3 : ∀ a, a ∈ A3 → a.level = 3 ∧ a.alert_type = "dead_agent" ∧ a.severity = "critical" :=
    fun a ha => processStale_alert_fields 3 "dead_agent" "critical" S3 lv2 a ha
  have memcat : ∀ a : Alert, a ∈ (monitorCheck tbl now lv).2 ↔ (a ∈ A1 ∨ a ∈ A2 ∨ a ∈ A3) := by
    intro a
    rw [hsnd]
    simp [List.mem_append, or_assoc]
  have t2red : ∀ sid, sid ∈ S2.map Session.session_id → (lv1 sid < 2 ↔ lv sid < 2) := by
    intro sid hm
    have hm1 := hS21 sid hm
    by_cases h1 : lv sid < 1
    · have hv1 : lv1 sid = 1 := by rw [e1 sid, if_pos ⟨hm1, h1⟩]
      rw [hv1]
      omega
    · have hv1 : lv1 sid = lv sid := by rw [e1 sid, if_neg (fun hcon => h1 hcon.2)]
      rw [hv1]
  have t3red : ∀ sid, sid ∈ S3.map Session.session_id → (lv2 sid < 3 ↔ lv sid < 3) := by
    intro sid hm3
    have hm2 := hS32 sid hm3
    have hm1 := hS21 sid hm2
    by_cases h1 : lv sid < 1
    · have hv1 : lv1 sid = 1 := by rw [e1 sid, if_pos ⟨hm1, h1⟩]
      have hv2 : lv2 sid = 2 := by rw [e2 sid, hv1, if_pos ⟨hm2, by omega⟩]
      rw [hv2]
      omega
    · have hv1 : lv1 sid = lv sid := by rw [e1 sid, if_neg (fun hcon => h1 hcon.2)]
      by_cases h2 : lv sid < 2
      · have hv2 : lv2 sid = 2 := by rw [e2 sid, hv1, if_pos ⟨hm2, h2⟩]
        rw [hv2]
        omega
      · have hv2 : lv2 sid = lv sid := by
          rw [e2 sid, hv1, if_neg (fun hcon => h2 hcon.2)]
        rw [hv2]
  refine ⟨?_, ?_, ?_, ?_, ?_, ?_, ?_, ?_⟩
  · intro x
    rw [hfst]
    exact le_trans (m1 x) (le_trans (m2 x) (m3 x))
  · intro sid
    rw [memcat]
    constructor
    · rintro (h | h | h)
      · exact (a1m sid).mp h
      · have : (1 : Nat) = 2 := (f2 _ h).1
        exact absurd this (by decide)
      · have : (1 : Nat) = 3 := (f3 _ h).1
        exact absurd this (by decide)
    · intro h
      exact Or.inl ((a1m sid).mpr h)
  · intro sid
    rw [memcat]
    constructor
    · rintro (h | h | h)
      · have : (2 : Nat) = 1 := (f1 _ h).1
        exact absurd this (by decide)
      · have h2 := (a2m sid).mp h
        exact ⟨h2.1, (t2red sid h2.1).mp h2.2⟩
      · have : (2 : Nat) = 3 := (f3 _ h).1
        exact absurd this (by decide)
    · intro h
      exact Or.inr (Or.inl ((a2m sid).mpr ⟨h.1, (t2red sid h.1).mpr h.2⟩))
  · intro sid
    rw [memcat]
    constructor
    · rintro (h | h | h)
      · have : (3 : Nat) = 1 := (f1 _ h).1
        exact absurd this (by decide)
      · have : (3 : Nat) = 2 := (f2 _ h).1
        exact absurd this (by decide)
      · have h3 := (a3m sid).mp h
        exact ⟨h3.1, (t3red sid h3.1).mp h3.2⟩
    · intro h
      exact Or.inr (Or.inr ((a3m sid).mpr ⟨h.1, (t3red sid h.1).mpr h.2⟩))
  · intro a ha
    rw [memcat] at ha
    rw [hfst]
    obtain ⟨al, asid, aat, asv⟩ := a
    rcases ha with h | h | h
    · obtain ⟨h1, h2, h3⟩ := f1 _ h
      dsimp at h1 h2 h3 ⊢
      subst h1; subst h2; subst h3
      have hx := (a1m asid).mp h
      have : lv1 asid = 1 := by rw [e1 asid, if_pos hx]
      exact le_trans (le_of_eq this.symm) (le_trans (m2 asid) (m3 asid))
    · obtain ⟨h1, h2, h3⟩ := f2 _ h
      dsimp at h1 h2 h3 ⊢
      subst h1; subst h2; subst h3
      have hx := (a2m asid).mp h
      have : lv2 asid = 2 := by rw [e2 asid, if_pos hx]
      exact le_trans (le_of_eq this.symm) (m3 asid)
    · obtain ⟨h1, h2, h3⟩ := f3 _ h
      dsimp at h1 h2 h3 ⊢
      subst h1; subst h2; subst h3
      have hx := (a3m asid).mp h
      have : lv3 asid = 3 := by rw [e3 asid, if_pos hx]
      exact le_of_eq this.symm
  · intro sid hno
    rw [hfst]
    have h1 : ¬(sid ∈ S1.map Session.session_id ∧ lv sid < 1) := fun hcon =>
      hno _ (memcat _ |>.mpr (Or.inl ((a1m sid).mpr hcon))) rfl
    have hl1 : lv1 sid = lv sid := by rw [e1 sid, if_neg h1]
    have h2 : ¬(sid ∈ S2.map Session.session_id ∧ lv1 sid < 2) := fun hcon =>
      hno _ (memcat _ |>.mpr (Or.inr (Or.inl ((a2m sid).mpr hcon)))) rfl
    have hl2 : lv2 sid = lv sid := by rw [e2 sid, if_neg h2, hl1]
    have h3 : ¬(sid ∈ S3.map Session.session_id ∧ lv2 sid < 3) := fun hcon =>
      hno _ (memcat _ |>.mpr (Or.inr (Or.inr ((a3m sid).mpr hcon)))) rfl
    rw [e3 sid, if_neg h3, hl2]
  · intro st body ts hsid h201
    by_cases hval : body.title = "" ∧ body.agent_name = ""
    · rw [show postEvent st body ts = (400, st) from by unfold postEvent; rw [if_pos hval]] at h201
      simp at h201
    · unfold postEvent
      rw [if_neg hval]
      simp [clearAlert, hsid]
  · intro st sid ts h200
    unfold heartbeatRoute at h200 ⊢
    by_cases hs : sid = ""
    · rw [if_pos hs] at h200
      simp at h200
    · rw [if_neg hs] at h200 ⊢
      by_cases hf : (dbHeartbeat st.sessions sid ts).2 = true
      · simp only [hf, if_true] at h200 ⊢
        simp [clearAlert]
      · simp only [hf] at h200
        rw [if_neg (by simp [hf])] at h200
        simp at h200

/-- The stale session instantiating the monitor contract. -/
def c8Session : Session := { session_id := "s", status := "active", last_seen := 0 }

theorem c8_monitor_escalation_witness :
    ({ level := 2, session_id := "s", alert_type := "stuck_agent", severity := "alert" } : Alert)
      ∈ (monitorCheck [c8Session] 1000 (fun _ => 0)).2 :=
  ((c8_monitor_escalation [c8Session] 1000 (fun _ => 0)).2.2.1 "s").mpr
    ⟨by decide, by decide⟩
